import Mathlib

/-!
Shallow embedding of the task-manager backend (src/backend/server.js):
an Express application over a Mongoose `Task` model, with CORS, JSON body
parsing, helmet security headers, an express-rate-limit limiter mounted at
the '/api/' prefix, and five route handlers (root info, list tasks, health
check, create task, toggle task, delete task).

Modelling conventions:
  * A Mongo document `_id` is modelled as a `String` (ObjectId hex form);
    the schema fields `text`, `completed`, `createdAt` are kept literally
    (`createdAt : Nat` stands for the millisecond `Date` value).
  * Every database operation can throw: `Env.dbError = some msg` means the
    store is unreachable and each store call throws `msg`; validation and
    ObjectId casting happen client-side in Mongoose and therefore fire
    before any connectivity error, exactly as in the driver.
  * `Env.now` is `Date.now`, `Env.nowIso` is `new Date().toISOString()`,
    `Env.uptime` is `process.uptime()`, `Env.freshId` is the ObjectId the
    driver generates for a newly constructed document.
  * Express dispatch is modelled by the registration-ordered layer list
    `appStack`, mirroring server.js top to bottom: `app.use(cors())`,
    `app.use(express.json())`, `app.use(helmet())`, the six routes, and
    finally `app.use('/api/', limiter)` on line 150, after all routes.
-/

namespace TaskManager

/-- A task document, from `taskSchema` (server.js lines 33-46): `text` is a
required String, `completed` a Boolean defaulting to false, `createdAt` a
Date defaulting to `Date.now`; `id` is the store-assigned `_id`. -/
structure Task where
  id : String
  text : String
  completed : Bool
  createdAt : Nat
deriving Repr, DecidableEq

/-- The persisted collection of task documents. -/
structure Store where
  tasks : List Task
deriving Repr, DecidableEq

/-- External inputs of a single request: store connectivity, clock readings
and the driver-generated ObjectId for a new document. -/
structure Env where
  dbError : Option String
  now : Nat
  nowIso : String
  uptime : Nat
  freshId : String
deriving Repr, DecidableEq

/-- Mongoose's `required: true` check for String paths: a value passes iff
it is present and has nonzero length. Whitespace-only strings pass. -/
def checkRequiredText : Option String → Bool
  | none => false
  | some s => s.length != 0

/-- The Mongoose validation error message surfaced when `text` fails its
`required` check. -/
def requiredErrorMessage : String :=
  "Task validation failed: text: Path `text` is required."

/-- A hexadecimal digit, as accepted in an ObjectId string. -/
def isHexChar (c : Char) : Bool :=
  c.isDigit || (decide ('a' ≤ c) && decide (c ≤ 'f')) ||
    (decide ('A' ≤ c) && decide (c ≤ 'F'))

/-- A syntactically valid ObjectId: a 24-character hexadecimal string.
Mongoose casts route ids to ObjectId and throws a CastError on any id that
does not have this shape. -/
def isValidObjectId (s : String) : Bool :=
  s.length == 24 && s.toList.all isHexChar

/-- The CastError message Mongoose throws when a route id is not a valid
ObjectId. -/
def castErrorMessage (id : String) : String :=
  "Cast to ObjectId failed for value \"" ++ id ++
    "\" (type string) at path \"_id\" for model \"Task\""

/-- Descending creation-time order used by `Task.find().sort` with
`createdAt: -1` (server.js line 83). -/
def byCreatedAtDesc (a b : Task) : Prop := b.createdAt ≤ a.createdAt

instance : DecidableRel byCreatedAtDesc := fun _ _ => Nat.decLe _ _

instance : IsTotal Task byCreatedAtDesc :=
  ⟨fun x y => Nat.le_total y.createdAt x.createdAt⟩

instance : IsTrans Task byCreatedAtDesc :=
  ⟨fun _ _ _ hab hbc => Nat.le_trans hbc hab⟩

/-- Sort the collection by `createdAt` descending (newest first). -/
def sortTasks (l : List Task) : List Task :=
  l.insertionSort byCreatedAtDesc

/-- `Task.find().sort` on `createdAt` descending (server.js line 83):
throws when the store is unreachable, otherwise returns all documents
newest first. -/
def taskFind (env : Env) (s : Store) : Except String (List Task) :=
  match env.dbError with
  | some e => .error e
  | none => .ok (sortTasks s.tasks)

/-- `new Task(obj)` followed by `task.save()` (server.js lines 113-114):
validation of the required `text` path runs first; on success the new
document gets `completed := false` and `createdAt := Date.now` from the
schema defaults and is appended to the collection. -/
def taskSave (env : Env) (text : Option String) (s : Store) :
    Except String (Task × Store) :=
  if checkRequiredText text then
    match env.dbError with
    | some e => .error e
    | none =>
      let t : Task :=
        { id := env.freshId, text := text.getD "", completed := false,
          createdAt := env.now }
      .ok (t, { tasks := s.tasks ++ [t] })
  else
    .error requiredErrorMessage

/-- `Task.findById(id)` (server.js line 124): throws a CastError on a
syntactically invalid id, throws on store failure, and otherwise returns
the first document with that `_id`, or `none`. -/
def findById (env : Env) (id : String) (s : Store) :
    Except String (Option Task) :=
  if isValidObjectId id then
    match env.dbError with
    | some e => .error e
    | none => .ok (s.tasks.find? (fun t => t.id == id))
  else
    .error (castErrorMessage id)

/-- `task.save()` on an already-persisted document (server.js line 130):
re-validates the required `text` path, then replaces the stored document
with the same `_id`. -/
def saveExisting (env : Env) (t : Task) (s : Store) :
    Except String (Task × Store) :=
  if checkRequiredText (some t.text) then
    match env.dbError with
    | some e => .error e
    | none =>
      .ok (t, { tasks := s.tasks.map (fun u => if u.id == t.id then t else u) })
  else
    .error requiredErrorMessage

/-- `Task.findByIdAndDelete(id)` (server.js line 140): CastError on an
invalid id, `none` when no document matches (collection unchanged),
otherwise removes the matched document and returns it. -/
def findByIdAndDelete (env : Env) (id : String) (s : Store) :
    Except String (Option (Task × Store)) :=
  if isValidObjectId id then
    match env.dbError with
    | some e => .error e
    | none =>
      match s.tasks.find? (fun t => t.id == id) with
      | none => .ok none
      | some t => .ok (some (t, { tasks := s.tasks.eraseP (fun u => u.id == id) }))
  else
    .error (castErrorMessage id)

/-- `mongoose.connection.db.admin().ping()` (server.js line 94): the health
probe, succeeding exactly when the store is reachable. -/
def adminPing (env : Env) : Except String Unit :=
  match env.dbError with
  | some e => .error e
  | none => .ok ()

/-- JSON response bodies produced by the server. -/
inductive Body where
  | tasks (ts : List Task)
  | task (t : Task)
  | err (message : String)
  | deleted (message : String)
  | healthOk (status : String) (timestamp : String) (uptime : Nat)
      (database : String)
  | healthErr (status : String) (error : String)
  | plain (s : String)
  | catalog
  | expressNotFound
deriving Repr, DecidableEq

/-- An HTTP response: status code and JSON body. -/
structure Response where
  status : Nat
  body : Body
deriving Repr, DecidableEq

/-- A parsed JSON request body; the create handler destructures only
`text`, but a client may also send `completed`, `createdAt`, or nothing. -/
structure ReqBody where
  text : Option String
  completed : Option Bool
  createdAt : Option Nat
deriving Repr, DecidableEq

/-- `GET /api/tasks` handler (server.js lines 81-88): 200 with the sorted
tasks, or 500 with the thrown error message. -/
def getTasksHandler (env : Env) (s : Store) : Response × Store :=
  match taskFind env s with
  | .ok ts => ({ status := 200, body := .tasks ts }, s)
  | .error e => ({ status := 500, body := .err e }, s)

/-- `GET /health` handler (server.js lines 91-107): pings the store; 200
with healthy payload, or 503 with unhealthy status and the error. -/
def healthHandler (env : Env) (s : Store) : Response × Store :=
  match adminPing env with
  | .ok _ =>
    ({ status := 200,
       body := .healthOk "healthy" env.nowIso env.uptime "connected" }, s)
  | .error e => ({ status := 503, body := .healthErr "unhealthy" e }, s)

/-- `POST /api/tasks` handler (server.js lines 110-119): destructures only
`text` from the body, saves a new task; 201 with the saved task, or 400
with the thrown error message. -/
def postTaskHandler (env : Env) (body : ReqBody) (s : Store) :
    Response × Store :=
  match taskSave env body.text s with
  | .ok (t, s') => ({ status := 201, body := .task t }, s')
  | .error e => ({ status := 400, body := .err e }, s)

/-- `PUT /api/tasks/:id/toggle` handler (server.js lines 122-135): finds
the task, 404 if absent, otherwise flips `completed` and saves; any thrown
error yields 400. The request body is never read. -/
def toggleHandler (env : Env) (id : String) (_body : ReqBody) (s : Store) :
    Response × Store :=
  match findById env id s with
  | .error e => ({ status := 400, body := .err e }, s)
  | .ok none => ({ status := 404, body := .err "Task not found" }, s)
  | .ok (some t) =>
    match saveExisting env { t with completed := !t.completed } s with
    | .ok (u, s') => ({ status := 200, body := .task u }, s')
    | .error e => ({ status := 400, body := .err e }, s)

/-- `DELETE /api/tasks/:id` handler (server.js lines 138-148): deletes by
id, 404 if absent, 200 with a confirmation message on success; any thrown
error yields 400. -/
def deleteHandler (env : Env) (id : String) (s : Store) : Response × Store :=
  match findByIdAndDelete env id s with
  | .error e => ({ status := 400, body := .err e }, s)
  | .ok none => ({ status := 404, body := .err "Task not found" }, s)
  | .ok (some (_, s')) =>
    ({ status := 200, body := .deleted "Task deleted successfully" }, s')

/-- HTTP methods used by the application. -/
inductive Method where
  | GET
  | POST
  | PUT
  | DELETE
deriving Repr, DecidableEq

/-- An inbound request: method, path split into segments, caller address,
and parsed JSON body. -/
structure Request where
  method : Method
  path : List String
  ip : String
  body : ReqBody
deriving Repr, DecidableEq

/-- Rate-limiter window from the limiter options (server.js line 51):
15 minutes in milliseconds. -/
def windowMs : Nat := 15 * 60 * 1000

/-- Rate-limiter cap from the limiter options (server.js line 52): at most
100 requests per caller address per window. -/
def limiterMax : Nat := 100

/-- The limiter's over-limit response payload (server.js line 53): a plain
string, sent as the body of the 429 response. -/
def limiterResponseText : String :=
  "Too many requests from this IP, please try again later."

/-- Per-caller hit counters of the rate limiter within the current
15-minute window (all claims stay inside one window, so window expiry
never fires and is not modelled). -/
structure RateState where
  hits : List (String × Nat)
deriving Repr, DecidableEq

/-- Current hit count for a caller address. -/
def RateState.get (r : RateState) (ip : String) : Nat :=
  match r.hits.find? (fun p => p.1 == ip) with
  | some p => p.2
  | none => 0

/-- Record a new hit count for a caller address. -/
def RateState.set (r : RateState) (ip : String) (n : Nat) : RateState :=
  if (r.hits.find? (fun p => p.1 == ip)).isSome then
    { hits := r.hits.map (fun p => if p.1 == ip then (ip, n) else p) }
  else
    { hits := r.hits ++ [(ip, n)] }

/-- Combined mutable server state: the task collection and the limiter's
counters. -/
structure ServerState where
  store : Store
  rate : RateState
deriving Repr, DecidableEq

/-- A path-pattern segment of a registered route: a literal or a `:param`
capture. -/
inductive Seg where
  | lit (s : String)
  | capture
deriving Repr, DecidableEq

/-- Identifiers of the route handlers registered in server.js. -/
inductive HandlerId where
  | rootInfo
  | listTasks
  | health
  | createTask
  | toggleTask
  | removeTask
deriving Repr, DecidableEq

/-- Identifiers of the middleware registered in server.js. -/
inductive MwId where
  | corsMw
  | jsonMw
  | helmetMw
  | limiterMw
deriving Repr, DecidableEq

/-- One entry of the Express layer stack: either `app.use(mount, mw)` or a
route registration with method and path pattern. -/
inductive Layer where
  | use (mount : List String) (mw : MwId)
  | route (m : Method) (pat : List Seg) (h : HandlerId)
deriving Repr, DecidableEq

/-- The Express layer stack in the exact registration order of server.js:
`app.use(cors())` (line 28), `app.use(express.json())` (line 29),
`app.use(helmet())` (line 30), `GET /` (line 68), `GET /api/tasks`
(line 81), `GET /health` (line 91), `POST /api/tasks` (line 110),
`PUT /api/tasks/:id/toggle` (line 122), `DELETE /api/tasks/:id`
(line 138), and only then `app.use('/api/', limiter)` (line 150). -/
def appStack : List Layer :=
  [ .use [] .corsMw,
    .use [] .jsonMw,
    .use [] .helmetMw,
    .route .GET [] .rootInfo,
    .route .GET [.lit "api", .lit "tasks"] .listTasks,
    .route .GET [.lit "health"] .health,
    .route .POST [.lit "api", .lit "tasks"] .createTask,
    .route .PUT [.lit "api", .lit "tasks", .capture, .lit "toggle"] .toggleTask,
    .route .DELETE [.lit "api", .lit "tasks", .capture] .removeTask,
    .use ["api"] .limiterMw ]

/-- Express route matching: the pattern must cover the whole path;
`capture` segments collect the parameter values. -/
def matchPattern : List Seg → List String → Option (List String)
  | [], [] => some []
  | .lit s :: ps, x :: xs => if s == x then matchPattern ps xs else none
  | .capture :: ps, x :: xs => (matchPattern ps xs).map (fun ys => x :: ys)
  | _, _ => none

/-- Express `app.use` mount matching: the mount path must be a segment
prefix of the request path (an empty mount matches everything). -/
def mountMatches (mount : List String) (path : List String) : Bool :=
  mount.isPrefixOf path

/-- Outcome of running one middleware: pass to the next layer, or send a
response and stop. -/
inductive MwResult where
  | next (st : ServerState)
  | send (r : Response) (st : ServerState)

/-- Middleware semantics. CORS, JSON parsing and helmet only decorate the
request or response and pass through. The limiter (express-rate-limit,
server.js lines 50-56) increments the caller's counter and sends a 429
with the configured message once the count exceeds the cap. -/
def runMw : MwId → Env → Request → ServerState → MwResult
  | .corsMw, _, _, st => .next st
  | .jsonMw, _, _, st => .next st
  | .helmetMw, _, _, st => .next st
  | .limiterMw, _, req, st =>
    let n := st.rate.get req.ip + 1
    let st' := { st with rate := st.rate.set req.ip n }
    if limiterMax < n then
      .send { status := 429, body := .plain limiterResponseText } st'
    else
      .next st'

/-- Dispatch a matched route to its handler. Only the task collection can
change; the limiter counters are untouched by handlers. -/
def runHandler (h : HandlerId) (env : Env) (req : Request)
    (params : List String) (st : ServerState) : Response × ServerState :=
  match h with
  | .rootInfo => ({ status := 200, body := .catalog }, st)
  | .listTasks =>
    let p := getTasksHandler env st.store
    (p.1, { st with store := p.2 })
  | .health =>
    let p := healthHandler env st.store
    (p.1, { st with store := p.2 })
  | .createTask =>
    let p := postTaskHandler env req.body st.store
    (p.1, { st with store := p.2 })
  | .toggleTask =>
    let p := toggleHandler env (params.headD "") req.body st.store
    (p.1, { st with store := p.2 })
  | .removeTask =>
    let p := deleteHandler env (params.headD "") st.store
    (p.1, { st with store := p.2 })

/-- Express dispatch: walk the layer stack in registration order; the
first matching route handles the request (and never calls the next
layer); middleware run when their mount matches and may short-circuit;
an exhausted stack yields Express's default 404. -/
def runLayers : List Layer → Env → Request → ServerState →
    Response × ServerState
  | [], _, _, st => ({ status := 404, body := .expressNotFound }, st)
  | .use mount mw :: rest, env, req, st =>
    if mountMatches mount req.path then
      match runMw mw env req st with
      | .next st' => runLayers rest env req st'
      | .send r st' => (r, st')
    else
      runLayers rest env req st
  | .route m pat h :: rest, env, req, st =>
    if req.method == m then
      match matchPattern pat req.path with
      | some params => runHandler h env req params st
      | none => runLayers rest env req st
    else
      runLayers rest env req st

/-- Handle one request against the full application stack. -/
def handle (env : Env) (req : Request) (st : ServerState) :
    Response × ServerState :=
  runLayers appStack env req st

/-! Concrete fixtures used by witnesses and counterexamples. -/

/-- A concrete 24-hex-character ObjectId. -/
def idA : String := "0123456789abcdef01234567"

/-- A second, distinct concrete ObjectId. -/
def idB : String := "89abcdef0123456789abcdef"

/-- A concrete stored task. -/
def taskA : Task :=
  { id := idA, text := "buy milk", completed := false, createdAt := 5 }

/-- A second concrete task, created later than `taskA`. -/
def taskB : Task :=
  { id := idB, text := "walk dog", completed := true, createdAt := 9 }

/-- An environment with a reachable store. -/
def envOk : Env :=
  { dbError := none, now := 42, nowIso := "2026-10-12T00:00:00.000Z",
    uptime := 7, freshId := idB }

/-- An environment whose store is unreachable: every operation throws. -/
def envDown : Env :=
  { dbError := some "connect ECONNREFUSED", now := 42, nowIso := "",
    uptime := 7, freshId := idB }

/-- A store holding only `taskA`. -/
def storeA : Store := { tasks := [taskA] }

/-- A store holding `taskA` and `taskB`, inserted oldest first. -/
def storeAB : Store := { tasks := [taskA, taskB] }

/-- A request body carrying nothing. -/
def bodyNone : ReqBody := { text := none, completed := none, createdAt := none }

/-- A request body with a plain text. -/
def bodyMilk : ReqBody :=
  { text := some "buy milk", completed := none, createdAt := none }

/-- A body that also smuggles `completed` and `createdAt` values. -/
def bodySneaky : ReqBody :=
  { text := some "buy milk", completed := some true, createdAt := some 1 }

/-- A server state whose limiter counter for caller 1.2.3.4 already
records 100 hits in the current window, as after 100 counted requests. -/
def stHits100 : ServerState :=
  { store := storeA, rate := { hits := [("1.2.3.4", 100)] } }

/-! Helper lemmas shared by the claim theorems below. -/

/-- Replacing the stored document that carries `id` makes the replacement
the first `find?` hit for `id`. -/
theorem find?_map_replace (l : List Task) (id : String) (t' : Task)
    (ht : t'.id = id) (h : (l.find? (fun u => u.id == id)).isSome = true) :
    (l.map (fun u => if u.id == id then t' else u)).find?
      (fun u => u.id == id) = some t' := by
  induction l with
  | nil => simp at h
  | cons a l ih =>
    simp only [List.map_cons]
    by_cases ha : (a.id == id) = true
    · rw [if_pos ha]
      exact List.find?_cons_of_pos (p := fun (u : Task) => u.id == id) _
        (by simp [ht])
    · rw [if_neg ha]
      rw [List.find?_cons_of_neg (p := fun (u : Task) => u.id == id) _ ha]
      rw [List.find?_cons_of_neg (p := fun (u : Task) => u.id == id) _ ha] at h
      exact ih h

/-- One toggle on a store in which `find?` locates `t`; `t'` is the saved
document with the flipped flag. -/
theorem toggle_step (env : Env) (id : String) (b : ReqBody) (l : List Task)
    (t t' : Task) (hdb : env.dbError = none) (hid : isValidObjectId id = true)
    (hfind : l.find? (fun u => u.id == id) = some t)
    (htext : checkRequiredText (some t.text) = true) (htid : t.id = id)
    (hflip : t' = { t with completed := !t.completed }) :
    toggleHandler env id b { tasks := l } =
      ({ status := 200, body := .task t' },
       { tasks := l.map (fun u => if u.id == id then t' else u) }) := by
  subst hflip
  simp [toggleHandler, findById, hid, hdb, hfind, saveExisting, htext, htid]

/-- After erasing the document found for `id` from a collection with
pairwise-distinct ids, no document with that id remains. -/
theorem eraseP_no_id_match (l : List Task) (id : String) (t : Task)
    (hfind : l.find? (fun u => u.id == id) = some t)
    (hnd : (l.map Task.id).Nodup) :
    ∀ u ∈ l.eraseP (fun u => u.id == id), ¬(u.id = id) := by
  have hmem : t ∈ l := List.mem_of_find?_eq_some hfind
  have hp := List.find?_some hfind
  obtain ⟨c, l1, l2, hl1, hc, heq, herase⟩ :=
    List.exists_of_eraseP (p := fun (u : Task) => u.id == id) hmem hp
  have hcid : c.id = id := by simpa using hc
  rw [herase]
  intro u hu hid
  rcases List.mem_append.mp hu with h | h
  · exact absurd hid (by simpa using hl1 u h)
  · have hnotin : c.id ∉ l2.map Task.id := by
      rw [heq] at hnd
      simp only [List.map_append, List.map_cons] at hnd
      have h2 := hnd.of_append_right
      exact (List.nodup_cons.mp h2).1
    exact hnotin (by rw [hcid, ← hid]; exact List.mem_map_of_mem Task.id h)

/-- Deleting a found document erases its first occurrence and confirms. -/
theorem delete_found_step (env : Env) (id : String) (l : List Task) (t : Task)
    (hdb : env.dbError = none) (hid : isValidObjectId id = true)
    (hfind : l.find? (fun u => u.id == id) = some t) :
    deleteHandler env id { tasks := l } =
      ({ status := 200, body := .deleted "Task deleted successfully" },
       { tasks := l.eraseP (fun u => u.id == id) }) := by
  simp [deleteHandler, findByIdAndDelete, hid, hdb, hfind]

/-! Claim theorems. -/

/-- C1: the claim says the 101st request to any route under the api
prefix within a 15-minute window from one caller receives a 429
rate-limit error with a retry hint. In the code, `app.use` of the
limiter at the api prefix is on line 150, after every route
registration, so a request matching an api route is answered by its
handler before the limiter layer is ever reached. This theorem records
the actual behavior: a request to GET /api/tasks returns 200 whenever
the store is reachable — whatever the caller's current counter says —
and no request to any of the four api routes ever changes the limiter
counters, so no caller is ever served the claimed 429 on these routes. -/
theorem api_routes_bypass_limiter (env : Env) (st : ServerState)
    (ip tid : String) (b : ReqBody) (hdb : env.dbError = none) :
    (handle env { method := .GET, path := ["api", "tasks"], ip := ip, body := b } st).1.status = 200 ∧
    (handle env { method := .GET, path := ["api", "tasks"], ip := ip, body := b } st).2.rate = st.rate ∧
    (handle env { method := .POST, path := ["api", "tasks"], ip := ip, body := b } st).2.rate = st.rate ∧
    (handle env { method := .PUT, path := ["api", "tasks", tid, "toggle"], ip := ip, body := b } st).2.rate = st.rate ∧
    (handle env { method := .DELETE, path := ["api", "tasks", tid], ip := ip, body := b } st).2.rate = st.rate := by
  refine ⟨?_, ?_, ?_, ?_, ?_⟩ <;>
    simp [handle, appStack, runLayers, mountMatches, List.isPrefixOf, runMw,
      matchPattern, runHandler, getTasksHandler, taskFind, hdb, postTaskHandler,
      toggleHandler, deleteHandler]

/-- Witness for C1: with the caller's counter already at the cap of 100,
the next GET /api/tasks request still succeeds with 200 and the counter
stays untouched, as do the counters for the other api routes. -/
theorem api_routes_bypass_limiter_witness :
    (handle envOk { method := .GET, path := ["api", "tasks"], ip := "1.2.3.4", body := bodyNone } stHits100).1.status = 200 ∧
    (handle envOk { method := .GET, path := ["api", "tasks"], ip := "1.2.3.4", body := bodyNone } stHits100).2.rate = stHits100.rate ∧
    (handle envOk { method := .POST, path := ["api", "tasks"], ip := "1.2.3.4", body := bodyNone } stHits100).2.rate = stHits100.rate ∧
    (handle envOk { method := .PUT, path := ["api", "tasks", idA, "toggle"], ip := "1.2.3.4", body := bodyNone } stHits100).2.rate = stHits100.rate ∧
    (handle envOk { method := .DELETE, path := ["api", "tasks", idA], ip := "1.2.3.4", body := bodyNone } stHits100).2.rate = stHits100.rate :=
  api_routes_bypass_limiter envOk stHits100 "1.2.3.4" idA bodyNone rfl

/-- C2 counterexample: a create request whose body text is a single space
is not rejected: it yields status 201 and the task is persisted,
refuting the claim that whitespace-only text yields a validation error
with no task persisted. Mongoose's required check only rejects missing
and zero-length strings. -/
theorem create_whitespace_text_persists :
    (postTaskHandler envOk { text := some " ", completed := none, createdAt := none }
      { tasks := [] }).1.status = 201 ∧
    (postTaskHandler envOk { text := some " ", completed := none, createdAt := none }
      { tasks := [] }).2 ≠ ({ tasks := [] } : Store) := by
  decide

/-- C2 (amended): for every create request whose body has a missing or an
empty `text`, the create operation returns a 400 validation error
carrying the Mongoose required-path message and the task collection is
unchanged; whitespace-only text, by contrast, is accepted. -/
theorem create_missing_or_empty_text_rejected (env : Env) (b : ReqBody)
    (s : Store) (h : b.text = none ∨ b.text = some "") :
    postTaskHandler env b s =
      ({ status := 400, body := .err requiredErrorMessage }, s) := by
  rcases h with h | h <;> simp [postTaskHandler, taskSave, h, checkRequiredText]

/-- Witness for C2 (amended): a body with no `text` is rejected with 400
and the single-task store stays as it was. -/
theorem create_rejection_witness :
    postTaskHandler envOk bodyNone storeA =
      ({ status := 400, body := .err requiredErrorMessage }, storeA) :=
  create_missing_or_empty_text_rejected envOk bodyNone storeA (Or.inl rfl)

/-- C3: the toggle operation reads the current task, inverts its
`completed` flag and persists it, never reading any client-supplied
target value: the handler's result is independent of the request body,
one toggle returns 200 with the task's flag inverted, and toggling the
same task twice returns 200 with the task at its original `completed`
value, which is also what remains persisted under that id. -/
theorem toggle_roundtrip (env : Env) (id : String) (b b1 b2 : ReqBody)
    (s : Store) (t : Task)
    (hdb : env.dbError = none) (hid : isValidObjectId id = true)
    (hfind : s.tasks.find? (fun u => u.id == id) = some t)
    (htext : checkRequiredText (some t.text) = true) :
    toggleHandler env id b1 s = toggleHandler env id b2 s ∧
    (toggleHandler env id b s).1 =
      { status := 200, body := .task { t with completed := !t.completed } } ∧
    (toggleHandler env id b (toggleHandler env id b s).2).1 =
      { status := 200, body := .task t } ∧
    (toggleHandler env id b (toggleHandler env id b s).2).2.tasks.find?
      (fun u => u.id == id) = some t := by
  have htid : t.id = id := by
    have h := List.find?_some hfind
    simpa using h
  have hs : s = { tasks := s.tasks } := rfl
  have h1 : toggleHandler env id b s =
      ({ status := 200, body := .task { t with completed := !t.completed } },
       { tasks := s.tasks.map (fun u =>
           if u.id == id then { t with completed := !t.completed } else u) }) := by
    rw [hs]
    exact toggle_step env id b s.tasks t _ hdb hid hfind htext htid rfl
  have hfind1 : (s.tasks.map (fun u =>
      if u.id == id then { t with completed := !t.completed } else u)).find?
      (fun u => u.id == id) = some { t with completed := !t.completed } :=
    find?_map_replace _ _ _ (by simpa using htid) (by rw [hfind]; rfl)
  have hback : t = { ({ t with completed := !t.completed } : Task) with
      completed := !(({ t with completed := !t.completed } : Task).completed) } := by
    obtain ⟨i, x, c, d⟩ := t
    simp
  have h2 := toggle_step env id b
    (s.tasks.map (fun u =>
      if u.id == id then { t with completed := !t.completed } else u))
    { t with completed := !t.completed } t hdb hid hfind1 (by simpa using htext)
    (by simpa using htid) hback
  refine ⟨rfl, by rw [h1], ?_, ?_⟩
  · rw [h1, h2]
  · rw [h1, h2]
    exact find?_map_replace _ _ _ htid (by rw [hfind1]; rfl)

/-- Witness for C3 at a concrete one-task store: toggling twice restores
the original task in the response and in the store. -/
theorem toggle_roundtrip_witness :
    toggleHandler envOk idA bodyNone storeA = toggleHandler envOk idA bodyMilk storeA ∧
    (toggleHandler envOk idA bodyNone storeA).1 =
      { status := 200, body := .task { taskA with completed := !taskA.completed } } ∧
    (toggleHandler envOk idA bodyNone (toggleHandler envOk idA bodyNone storeA).2).1 =
      { status := 200, body := .task taskA } ∧
    (toggleHandler envOk idA bodyNone (toggleHandler envOk idA bodyNone storeA).2).2.tasks.find?
      (fun u => u.id == idA) = some taskA :=
  toggle_roundtrip envOk idA bodyNone bodyNone bodyMilk storeA taskA rfl
    (by decide) (by decide) (by decide)

/-- C4: for every store state, listing tasks while the store is reachable
returns 200 with a sequence that contains exactly the stored tasks (a
permutation of the collection) sorted by `createdAt` descending, newest
first, regardless of insertion order. -/
theorem list_sorted_desc (env : Env) (s : Store) (hdb : env.dbError = none) :
    ∃ ts, getTasksHandler env s = ({ status := 200, body := .tasks ts }, s) ∧
      ts.Perm s.tasks ∧ ts.Sorted byCreatedAtDesc := by
  refine ⟨sortTasks s.tasks, ?_, ?_, ?_⟩
  · simp [getTasksHandler, taskFind, hdb]
  · simpa [sortTasks] using List.perm_insertionSort byCreatedAtDesc s.tasks
  · simpa [sortTasks] using List.sorted_insertionSort byCreatedAtDesc s.tasks

/-- Witness for C4 on a two-task store whose insertion order is oldest
first. -/
theorem list_sorted_witness :
    ∃ ts, getTasksHandler envOk storeAB = ({ status := 200, body := .tasks ts }, storeAB) ∧
      ts.Perm storeAB.tasks ∧ ts.Sorted byCreatedAtDesc :=
  list_sorted_desc envOk storeAB rfl

/-- C5: with a syntactically valid but nonexistent id, toggle and delete
both return 404 with body error "Task not found" and leave the store
unchanged; and for an id present in a store with pairwise-distinct ids,
delete returns the confirmation message, the subsequent list result
contains no task with that id, and a second delete of the same id
returns the 404 not-found error with no further change. -/
theorem notfound_and_delete_semantics (env : Env) (s : Store) (id : String)
    (b : ReqBody) (hdb : env.dbError = none) (hid : isValidObjectId id = true) :
    ((s.tasks.find? (fun u => u.id == id) = none) →
      toggleHandler env id b s = ({ status := 404, body := .err "Task not found" }, s) ∧
      deleteHandler env id s = ({ status := 404, body := .err "Task not found" }, s)) ∧
    (∀ t, s.tasks.find? (fun u => u.id == id) = some t →
      (s.tasks.map Task.id).Nodup →
      (deleteHandler env id s).1 =
        { status := 200, body := .deleted "Task deleted successfully" } ∧
      (∃ ts, getTasksHandler env (deleteHandler env id s).2 =
          ({ status := 200, body := .tasks ts }, (deleteHandler env id s).2) ∧
        ∀ u ∈ ts, ¬(u.id = id)) ∧
      deleteHandler env id (deleteHandler env id s).2 =
        ({ status := 404, body := .err "Task not found" },
         (deleteHandler env id s).2)) := by
  constructor
  · intro hnone
    constructor
    · simp [toggleHandler, findById, hid, hdb, hnone]
    · simp [deleteHandler, findByIdAndDelete, hid, hdb, hnone]
  · intro t hfind hnd
    have hs : s = { tasks := s.tasks } := rfl
    have hdel : deleteHandler env id s =
        ({ status := 200, body := .deleted "Task deleted successfully" },
         { tasks := s.tasks.eraseP (fun u => u.id == id) }) := by
      rw [hs]
      exact delete_found_step env id s.tasks t hdb hid hfind
    have hgone := eraseP_no_id_match s.tasks id t hfind hnd
    have hnone2 : (s.tasks.eraseP (fun u => u.id == id)).find?
        (fun u => u.id == id) = none := by
      rw [List.find?_eq_none]
      intro u hu
      simpa using hgone u hu
    refine ⟨by rw [hdel], ?_, ?_⟩
    · refine ⟨sortTasks (s.tasks.eraseP (fun u => u.id == id)), ?_, ?_⟩
      · rw [hdel]
        simp [getTasksHandler, taskFind, hdb]
      · intro u hu
        have hperm := List.perm_insertionSort byCreatedAtDesc
          (s.tasks.eraseP (fun u => u.id == id))
        simp only [sortTasks] at hu
        exact hgone u (hperm.mem_iff.mp hu)
    · rw [hdel]
      simp [deleteHandler, findByIdAndDelete, hid, hdb, hnone2]

/-- Witness for C5: on the one-task store, the absent id `idB` draws the
404 body from both toggle and delete, while deleting the present id
`idA` confirms, removes it from the listing, and 404s the second time. -/
theorem notfound_and_delete_witness :
    (toggleHandler envOk idB bodyNone storeA =
      ({ status := 404, body := .err "Task not found" }, storeA)) ∧
    (deleteHandler envOk idB storeA =
      ({ status := 404, body := .err "Task not found" }, storeA)) ∧
    ((deleteHandler envOk idA storeA).1 =
      { status := 200, body := .deleted "Task deleted successfully" }) ∧
    (∃ ts, getTasksHandler envOk (deleteHandler envOk idA storeA).2 =
        ({ status := 200, body := .tasks ts }, (deleteHandler envOk idA storeA).2) ∧
      ∀ u ∈ ts, ¬(u.id = idA)) ∧
    (deleteHandler envOk idA (deleteHandler envOk idA storeA).2 =
      ({ status := 404, body := .err "Task not found" },
       (deleteHandler envOk idA storeA).2)) :=
  ⟨((notfound_and_delete_semantics envOk storeA idB bodyNone rfl (by decide)).1
      (by decide)).1,
   ((notfound_and_delete_semantics envOk storeA idB bodyNone rfl (by decide)).1
      (by decide)).2,
   ((notfound_and_delete_semantics envOk storeA idA bodyNone rfl (by decide)).2
      taskA (by decide) (by decide)).1,
   ((notfound_and_delete_semantics envOk storeA idA bodyNone rfl (by decide)).2
      taskA (by decide) (by decide)).2.1,
   ((notfound_and_delete_semantics envOk storeA idA bodyNone rfl (by decide)).2
      taskA (by decide) (by decide)).2.2⟩

/-- C6: every element of the sequence returned by GET /api/tasks, served
through the full middleware and routing stack, is one of the stored task
records: a task object carrying exactly the fields id, text, completed
and createdAt. -/
theorem list_elements_are_stored_tasks (env : Env) (st : ServerState)
    (ip : String) (b : ReqBody) (hdb : env.dbError = none) :
    ∃ ts, (handle env { method := .GET, path := ["api", "tasks"], ip := ip, body := b } st).1 =
        { status := 200, body := .tasks ts } ∧
      ∀ t ∈ ts, t ∈ st.store.tasks ∧
        t = Task.mk t.id t.text t.completed t.createdAt := by
  refine ⟨sortTasks st.store.tasks, ?_, ?_⟩
  · simp [handle, appStack, runLayers, mountMatches, List.isPrefixOf, runMw,
      matchPattern, runHandler, getTasksHandler, taskFind, hdb]
  · intro t ht
    refine ⟨?_, rfl⟩
    have hperm := List.perm_insertionSort byCreatedAtDesc st.store.tasks
    simp only [sortTasks] at ht
    exact hperm.mem_iff.mp ht

/-- Witness for C6 on the two-task store. -/
theorem list_elements_witness :
    ∃ ts, (handle envOk { method := .GET, path := ["api", "tasks"], ip := "1.2.3.4", body := bodyNone }
        { store := storeAB, rate := { hits := [] } }).1 =
        { status := 200, body := .tasks ts } ∧
      ∀ t ∈ ts, t ∈ storeAB.tasks ∧
        t = Task.mk t.id t.text t.completed t.createdAt :=
  list_elements_are_stored_tasks envOk { store := storeAB, rate := { hits := [] } }
    "1.2.3.4" bodyNone rfl

/-- C7: whenever a store operation throws, the read path (list) returns
500 and the write paths (create with valid text, toggle, delete with a
castable id) return 400, each with a JSON body whose error field is
exactly the thrown message, and the store is left unchanged: the error
is surfaced immediately, with no retry. -/
theorem store_error_statuses (env : Env) (s : Store) (e id : String)
    (b : ReqBody) (hdb : env.dbError = some e)
    (hid : isValidObjectId id = true)
    (hb : checkRequiredText b.text = true) :
    getTasksHandler env s = ({ status := 500, body := .err e }, s) ∧
    postTaskHandler env b s = ({ status := 400, body := .err e }, s) ∧
    toggleHandler env id b s = ({ status := 400, body := .err e }, s) ∧
    deleteHandler env id s = ({ status := 400, body := .err e }, s) := by
  simp [getTasksHandler, taskFind, postTaskHandler, taskSave, toggleHandler,
    findById, deleteHandler, findByIdAndDelete, hdb, hid, hb]

/-- Witness for C7 with a concrete connection-refused error. -/
theorem store_error_witness :
    getTasksHandler envDown storeA =
      ({ status := 500, body := .err "connect ECONNREFUSED" }, storeA) ∧
    postTaskHandler envDown bodyMilk storeA =
      ({ status := 400, body := .err "connect ECONNREFUSED" }, storeA) ∧
    toggleHandler envDown idA bodyMilk storeA =
      ({ status := 400, body := .err "connect ECONNREFUSED" }, storeA) ∧
    deleteHandler envDown idA storeA =
      ({ status := 400, body := .err "connect ECONNREFUSED" }, storeA) :=
  store_error_statuses envDown storeA "connect ECONNREFUSED" idA bodyMilk rfl
    (by decide) (by decide)

/-- C8: the health endpoint never creates, modifies or deletes any task —
the whole server state, task collection included, is unchanged in both
branches — and returns 200 with status healthy, the ISO-8601 timestamp
of the serving instant, the process uptime in seconds and the literal
database connected marker on probe success, or 503 with status unhealthy
and the underlying error message on probe failure. -/
theorem health_frame_and_payload (env : Env) (st : ServerState) (ip : String)
    (b : ReqBody) :
    (handle env { method := .GET, path := ["health"], ip := ip, body := b } st).2 = st ∧
    (env.dbError = none →
      (handle env { method := .GET, path := ["health"], ip := ip, body := b } st).1 =
        { status := 200,
          body := .healthOk "healthy" env.nowIso env.uptime "connected" }) ∧
    (∀ e, env.dbError = some e →
      (handle env { method := .GET, path := ["health"], ip := ip, body := b } st).1 =
        { status := 503, body := .healthErr "unhealthy" e }) := by
  refine ⟨?_, ?_, ?_⟩
  · cases hdb : env.dbError <;>
      simp [handle, appStack, runLayers, mountMatches, List.isPrefixOf, runMw,
        matchPattern, runHandler, healthHandler, adminPing, hdb]
  · intro hdb
    simp [handle, appStack, runLayers, mountMatches, List.isPrefixOf, runMw,
      matchPattern, runHandler, healthHandler, adminPing, hdb]
  · intro e hdb
    simp [handle, appStack, runLayers, mountMatches, List.isPrefixOf, runMw,
      matchPattern, runHandler, healthHandler, adminPing, hdb]

/-- Witness for C8: both probe branches at concrete states, including one
whose limiter counter sits at the cap — health is still served. -/
theorem health_witness :
    (handle envOk { method := .GET, path := ["health"], ip := "1.2.3.4", body := bodyNone } stHits100).2 = stHits100 ∧
    (handle envOk { method := .GET, path := ["health"], ip := "1.2.3.4", body := bodyNone } stHits100).1 =
      { status := 200, body := .healthOk "healthy" envOk.nowIso envOk.uptime "connected" } ∧
    (handle envDown { method := .GET, path := ["health"], ip := "1.2.3.4", body := bodyNone } stHits100).1 =
      { status := 503, body := .healthErr "unhealthy" "connect ECONNREFUSED" } :=
  ⟨(health_frame_and_payload envOk stHits100 "1.2.3.4" bodyNone).1,
   (health_frame_and_payload envOk stHits100 "1.2.3.4" bodyNone).2.1 rfl,
   (health_frame_and_payload envDown stHits100 "1.2.3.4" bodyNone).2.2
     "connect ECONNREFUSED" rfl⟩

/-- C9: the create handler destructures only `text` from the request
body: two bodies agreeing on `text` produce identical results, and every
successfully created task has `completed` false and the server-assigned
`createdAt` of the serving instant, whatever else the body contains. -/
theorem create_reads_only_text (env : Env) (b1 b2 : ReqBody) (s : Store)
    (h : b1.text = b2.text) :
    postTaskHandler env b1 s = postTaskHandler env b2 s ∧
    (∀ t s', postTaskHandler env b1 s = ({ status := 201, body := .task t }, s') →
      t.completed = false ∧ t.createdAt = env.now ∧
      s' = { tasks := s.tasks ++ [t] }) := by
  constructor
  · simp only [postTaskHandler, h]
  · intro t s' hres
    unfold postTaskHandler at hres
    rcases htv : taskSave env b1.text s with e | p
    · rw [htv] at hres
      simp at hres
    · rw [htv] at hres
      simp only at hres
      unfold taskSave at htv
      split at htv
      · cases hdb : env.dbError with
        | some e => rw [hdb] at htv; simp at htv
        | none =>
          rw [hdb] at htv
          simp only [Except.ok.injEq] at htv
          cases hres
          cases htv
          exact ⟨rfl, rfl, rfl⟩
      · simp at htv

/-- Witness for C9: a body that smuggles completed true and a createdAt
value produces exactly the same outcome as the plain body. -/
theorem create_defaults_witness :
    postTaskHandler envOk bodyMilk storeA = postTaskHandler envOk bodySneaky storeA :=
  (create_reads_only_text envOk bodyMilk bodySneaky storeA rfl).1

/-- C10: for every syntactically invalid task id — one the store's id
cast throws on — the toggle and delete operations return 400 with the
thrown CastError message in the error field, not the 404 not-found
response, and the store is unchanged. -/
theorem invalid_id_yields_cast_error (env : Env) (s : Store) (id : String)
    (b : ReqBody) (h : isValidObjectId id = false) :
    toggleHandler env id b s =
      ({ status := 400, body := .err (castErrorMessage id) }, s) ∧
    deleteHandler env id s =
      ({ status := 400, body := .err (castErrorMessage id) }, s) := by
  simp [toggleHandler, deleteHandler, findById, findByIdAndDelete, h]

/-- Witness for C10 at a non-ObjectId path parameter. -/
theorem invalid_id_witness :
    toggleHandler envOk "not-an-objectid" bodyNone storeA =
      ({ status := 400, body := .err (castErrorMessage "not-an-objectid") }, storeA) ∧
    deleteHandler envOk "not-an-objectid" storeA =
      ({ status := 400, body := .err (castErrorMessage "not-an-objectid") }, storeA) :=
  invalid_id_yields_cast_error envOk storeA "not-an-objectid" bodyNone (by decide)

end TaskManager
